import Mathlib

/-!
Shallow embedding of the Carambolage game-loop orchestrator
(`src/game/mod.rs`).  The single source file under verification contains
`Game::new`, `Game::run`, `Game::process_events` and `Game::process_input`.
External collaborators (`Scene`, `Controller`, `FrameBuffer`, `Shader`,
the GLFW window) live outside the source tree; they are modelled
abstractly: scene and controller states are type parameters with abstract
step functions, and the externally visible calls (GL calls, buffer swaps,
scene calls) are recorded in an explicit action trace.  `util::FrameLimiter`
is also outside the source tree and is modelled from the spec.
Machine integers: Rust `u32` is `Nat` (with an explicit wrap at `2^32`
where an `as`-cast occurs) and `i32` is `Int`.  Wall time is modelled as
rational seconds.
-/

namespace Carambolage

/-- Rust `as u32` cast of an `i32` value: wraps modulo `2^32`. -/
def i32ToU32 (w : Int) : Nat := (w % (2 ^ 32)).toNat

/-- Rust `as i32` cast of a `u32` value: reinterpret modulo `2^32`. -/
def u32ToI32 (n : Nat) : Int :=
  if n % (2 ^ 32) < 2 ^ 31 then (n % (2 ^ 32) : Nat)
  else (n % (2 ^ 32) : Nat) - (2 ^ 32 : Int)

/-- Struct `GameSettings` from `src/game/mod.rs` (all numeric fields are `u32`). -/
structure GameSettings where
  is_fullscreen : Bool
  width : Nat
  height : Nat
  fps : Nat
  deriving Repr, DecidableEq

/-- Instance `Default for GameSettings`: windowed, 640x480, 60 fps. -/
def GameSettings.default : GameSettings :=
  { is_fullscreen := false, width := 640, height := 480, fps := 60 }

/-- Modelled from the spec: `util::FrameLimiter` is not under `src/`.
The spec (section 4.1) says it holds a target frame duration derived from
`fps` and the timestamp of the last frame start; `fps = 0` must be guarded
so that the target duration is at least 1 (no division by zero, no
infinite idle loop).  Time is in rational seconds. -/
structure FrameLimiter where
  targetDuration : ℚ
  lastStart : ℚ
  deriving Repr, DecidableEq

/-- Modelled from the spec: `FrameLimiter::new(fps)`; target duration is
`1/fps` seconds, clamped to a guarded minimum of 1 when `fps = 0`. -/
def FrameLimiter.new (fps : Nat) : FrameLimiter :=
  { targetDuration := if fps = 0 then 1 else 1 / (fps : ℚ), lastStart := 0 }

/-- Modelled from the spec: `start()` returns the elapsed wall time since
the previous `start` and records the new start timestamp. -/
def FrameLimiter.start (fl : FrameLimiter) (now : ℚ) : ℚ × FrameLimiter :=
  (now - fl.lastStart, { fl with lastStart := now })

/-- Modelled from the spec: `stop()` returns `true` while the elapsed time
since `start` remains below the target frame duration, `false` once the
budget is exhausted. -/
def FrameLimiter.stop (fl : FrameLimiter) (now : ℚ) : Bool :=
  decide (now - fl.lastStart < fl.targetDuration)

/-- The keys `Game::process_input` polls, plus an index for any other key
(read only by the abstract controllers). -/
inductive GKey where
  | escape | f1 | f2 | f3 | f4 | f5 | f6 | f7 | f8 | f9 | f10
  | other (n : Nat)
  deriving Repr, DecidableEq

/-- Raw key state of the window: which keys read as `Action::Press`. -/
def KeyState := GKey → Bool

/-- GLFW window events polled by the loop.  Only
`WindowEvent::FramebufferSize(width, height)` (both `i32`) is handled;
everything else falls into the wildcard arm. -/
inductive WindowEvent where
  | framebufferSize (width height : Int)
  | otherEvent (n : Nat)
  deriving Repr, DecidableEq

/-- The perspective-projection argument of `scene.draw`:
`Perspective3::new(aspect, 70., 0.1, 100.)`. -/
structure Projection where
  aspect : ℚ
  fovy : ℚ
  znear : ℚ
  zfar : ℚ
  deriving Repr, DecidableEq

/-- Externally visible calls made by one iteration of `Game::run`,
recorded as a trace. -/
inductive GAction where
  | limiterStart (dt : ℚ)
  | makeCurrent
  | pollEvents
  | viewportCall (width height : Int)
  | fbResize (width height : Int)
  | pollKeyboard
  | ctrlUpdate (i : Nat)
  | sceneUpdateCall (dt : ℚ)
  | fbBind
  | clearOffscreen
  | sceneDrawCall (p : Projection)
  | fbUnbind
  | clearVisible
  | postProcess (effect : Int)
  | swapBuffers
  | limiterStopCall (r : Bool)
  | sleepCall
  deriving Repr, DecidableEq

/-- State of the `Game` struct, parametric in the abstract controller state
`C` and scene state `S`.  `fbWidth`/`fbHeight` are the dimensions of the
offscreen target (`FrameBuffer` is a collaborator; only its size is tracked);
`viewport` is the last `gl::Viewport` rectangle requested by event
processing, `none` before any resize event. -/
structure Game (C S : Type) where
  shouldClose : Bool
  postProcEffect : Int
  settings : GameSettings
  fbWidth : Int
  fbHeight : Int
  viewport : Option (Int × Int)
  frameLimiter : FrameLimiter
  controller : List C
  scene : S

/-- Constructor `Game::new(settings)`: the state-relevant part of construction.
The window/GL initialization has no model state; the offscreen target is
allocated at `settings.width as i32, settings.height as i32`, the
post-process effect starts at 0, and exactly two controllers are built
(WASD and Arrows layouts, both abstract here). -/
def Game.new {C S : Type} (settings : GameSettings) (ctrlWASD ctrlArrows : C)
    (scene : S) : Game C S :=
  { shouldClose := false
    postProcEffect := 0
    settings := settings
    fbWidth := u32ToI32 settings.width
    fbHeight := u32ToI32 settings.height
    viewport := none
    frameLimiter := FrameLimiter.new settings.fps
    controller := [ctrlWASD, ctrlArrows]
    scene := scene }

/-- One arm of the `match` in `Game::process_events`: a
`FramebufferSize(width, height)` event sets the viewport, stores
`width as u32` / `height as u32` into the settings, and resizes the
offscreen target; every other event is ignored. -/
def processEvent {C S : Type} (g : Game C S) (e : WindowEvent) : Game C S :=
  match e with
  | .framebufferSize w h =>
      { g with
        viewport := some (w, h)
        settings := { g.settings with width := i32ToU32 w, height := i32ToU32 h }
        fbWidth := w
        fbHeight := h }
  | .otherEvent _ => g

/-- Trace of processing one event: the `gl::Viewport` and
`FrameBuffer::resize` calls for a resize event, nothing otherwise. -/
def processEventTrace (e : WindowEvent) : List GAction :=
  match e with
  | .framebufferSize w h => [.viewportCall w h, .fbResize w h]
  | .otherEvent _ => []

/-- Method `Game::process_events`: drain the queued events in order with
`glfw::flush_messages`, handling each one. -/
def process_events {C S : Type} (g : Game C S) (events : List WindowEvent) :
    Game C S :=
  events.foldl processEvent g

/-- The calls `Game::process_events` makes while draining a queue. -/
def processEventsTrace (events : List WindowEvent) : List GAction :=
  events.flatMap processEventTrace

/-- One `if self.window.get_key(Key::Fi) == Action::Press {
self.post_proc_effect = i; }` statement of `Game::process_input`. -/
def effectKeyCheck {C S : Type} (keys : KeyState) (k : GKey) (v : Int)
    (g : Game C S) : Game C S :=
  if keys k then { g with postProcEffect := v } else g

/-- Method `Game::process_input(dt)`: Escape requests close; the F1..F10 checks
run in fixed order, each (independently) overwriting the post-process
effect with its own number; finally every controller is updated in order
from the raw key state.  `ctrlStep` stands for the abstract
`Controller::process_input`. -/
def process_input {C S : Type} (ctrlStep : C → KeyState → ℚ → C)
    (g : Game C S) (keys : KeyState) (dt : ℚ) : Game C S :=
  let g := if keys .escape then { g with shouldClose := true } else g
  let g := effectKeyCheck keys .f1 1 g
  let g := effectKeyCheck keys .f2 2 g
  let g := effectKeyCheck keys .f3 3 g
  let g := effectKeyCheck keys .f4 4 g
  let g := effectKeyCheck keys .f5 5 g
  let g := effectKeyCheck keys .f6 6 g
  let g := effectKeyCheck keys .f7 7 g
  let g := effectKeyCheck keys .f8 8 g
  let g := effectKeyCheck keys .f9 9 g
  let g := effectKeyCheck keys .f10 10 g
  { g with controller := g.controller.map (fun c => ctrlStep c keys dt) }

/-- The calls `Game::process_input` makes: the keyboard poll, then one
controller update per controller in order. -/
def processInputTrace {C S : Type} (g : Game C S) : List GAction :=
  GAction.pollKeyboard :: (List.range g.controller.length).map GAction.ctrlUpdate

/-- External input to one loop iteration: the wall time at
`frame_limiter.start()`, the events the OS has queued, the raw key state,
and the wall times observed at each `frame_limiter.stop()` check of the
idle loop. -/
structure FrameInput where
  now : ℚ
  events : List WindowEvent
  keys : KeyState
  idleTimes : List ℚ

/-- The idle loop ending the body of `Game::run`:
`while frame_limiter.stop() { glfw.poll_events(); sleep(nano_sec); }`.
Each `stop` check reads the wall clock; the loop body runs while `stop`
returns `true` and exits at the first `false`.  If the supplied time list
ends first the trace simply ends (the model cannot run forever). -/
def idleTrace (fl : FrameLimiter) : List ℚ → List GAction
  | [] => []
  | t :: ts =>
      if fl.stop t then
        GAction.limiterStopCall true :: GAction.pollEvents ::
          GAction.sleepCall :: idleTrace fl ts
      else [GAction.limiterStopCall false]

/-- Index of the first idle-loop `stop` check that returns `false` (the
check at which the idle loop exits), if any check in the supplied time
list does. -/
def idleExitIdx (fl : FrameLimiter) : List ℚ → Option Nat
  | [] => none
  | t :: ts => if fl.stop t then (idleExitIdx fl ts).map (· + 1) else some 0

/-- One iteration of the `while !self.window.should_close()` body of
`Game::run`, in source order: `frame_limiter.start()` yields `dt`, make
the context current, poll OS events, `process_events`, `process_input(dt)`
(keyboard poll then controller updates), `scene.update(dt, controllers)`,
bind the offscreen target / clear / `scene.draw(projection)` / unbind,
clear the visible framebuffer, run the post-process composite, swap
buffers, then the idle loop.  Returns the new state and the trace of
externally visible calls.  `sceneUpd` stands for the abstract `Scene::update`. -/
def frame {C S : Type} (ctrlStep : C → KeyState → ℚ → C)
    (sceneUpd : S → ℚ → List C → S) (g : Game C S) (inp : FrameInput) :
    Game C S × List GAction :=
  let p := g.frameLimiter.start inp.now
  let dt := p.1
  let g0 : Game C S := { g with frameLimiter := p.2 }
  let g1 := process_events g0 inp.events
  let g2 := process_input ctrlStep g1 inp.keys dt
  let g3 : Game C S := { g2 with scene := sceneUpd g2.scene dt g2.controller }
  let proj : Projection :=
    { aspect := (g2.settings.width : ℚ) / (g2.settings.height : ℚ)
      fovy := 70, znear := 1 / 10, zfar := 100 }
  (g3,
    GAction.limiterStart dt :: GAction.makeCurrent :: GAction.pollEvents ::
      (processEventsTrace inp.events ++ processInputTrace g1 ++
        GAction.sceneUpdateCall dt :: GAction.fbBind ::
          GAction.clearOffscreen :: GAction.sceneDrawCall proj ::
            GAction.fbUnbind :: GAction.clearVisible ::
              GAction.postProcess g2.postProcEffect :: GAction.swapBuffers ::
                idleTrace g3.frameLimiter inp.idleTimes))

/-- Main loop of `Game::run`: the close flag is observed at the start of
each iteration; while it is unset the body runs on the next frame input.
Returns the final state and the per-iteration traces. -/
def runLoop {C S : Type} (ctrlStep : C → KeyState → ℚ → C)
    (sceneUpd : S → ℚ → List C → S) :
    Game C S → List FrameInput → Game C S × List (List GAction)
  | g, [] => (g, [])
  | g, inp :: rest =>
      if g.shouldClose then (g, [])
      else
        let p := frame ctrlStep sceneUpd g inp
        let q := runLoop ctrlStep sceneUpd p.1 rest
        (q.1, p.2 :: q.2)

/-- Is the action a `scene.update` call? -/
def GAction.isSceneUpdate : GAction → Bool
  | .sceneUpdateCall _ => true
  | _ => false

/-- Is the action a `scene.draw` call? -/
def GAction.isSceneDraw : GAction → Bool
  | .sceneDrawCall _ => true
  | _ => false

/-- Is the action a buffer swap (present)? -/
def GAction.isSwap : GAction → Bool
  | .swapBuffers => true
  | _ => false

/-- Is the action a `FrameBuffer::resize` call? -/
def GAction.isFbResize : GAction → Bool
  | .fbResize _ _ => true
  | _ => false

/-! ### Projection lemmas for the step functions -/

@[simp] theorem effectKeyCheck_shouldClose {C S : Type} (keys : KeyState)
    (k : GKey) (v : Int) (g : Game C S) :
    (effectKeyCheck keys k v g).shouldClose = g.shouldClose := by
  unfold effectKeyCheck; split <;> rfl

@[simp] theorem effectKeyCheck_settings {C S : Type} (keys : KeyState)
    (k : GKey) (v : Int) (g : Game C S) :
    (effectKeyCheck keys k v g).settings = g.settings := by
  unfold effectKeyCheck; split <;> rfl

@[simp] theorem effectKeyCheck_controller {C S : Type} (keys : KeyState)
    (k : GKey) (v : Int) (g : Game C S) :
    (effectKeyCheck keys k v g).controller = g.controller := by
  unfold effectKeyCheck; split <;> rfl

@[simp] theorem effectKeyCheck_scene {C S : Type} (keys : KeyState)
    (k : GKey) (v : Int) (g : Game C S) :
    (effectKeyCheck keys k v g).scene = g.scene := by
  unfold effectKeyCheck; split <;> rfl

@[simp] theorem effectKeyCheck_frameLimiter {C S : Type} (keys : KeyState)
    (k : GKey) (v : Int) (g : Game C S) :
    (effectKeyCheck keys k v g).frameLimiter = g.frameLimiter := by
  unfold effectKeyCheck; split <;> rfl

theorem effectKeyCheck_postProcEffect {C S : Type} (keys : KeyState)
    (k : GKey) (v : Int) (g : Game C S) :
    (effectKeyCheck keys k v g).postProcEffect =
      if keys k then v else g.postProcEffect := by
  unfold effectKeyCheck; split <;> rfl

theorem process_input_shouldClose {C S : Type}
    (ctrlStep : C → KeyState → ℚ → C) (g : Game C S) (keys : KeyState)
    (dt : ℚ) :
    (process_input ctrlStep g keys dt).shouldClose =
      (g.shouldClose || keys GKey.escape) := by
  unfold process_input
  cases hesc : keys GKey.escape <;> simp [hesc]

theorem process_input_settings {C S : Type}
    (ctrlStep : C → KeyState → ℚ → C) (g : Game C S) (keys : KeyState)
    (dt : ℚ) :
    (process_input ctrlStep g keys dt).settings = g.settings := by
  unfold process_input
  cases hesc : keys GKey.escape <;> simp [hesc]

/-- The F1..F10 checks run in order, so the last pressed function key
wins: the final effect is described by this nested conditional read from
F10 down to F1. -/
theorem process_input_postProcEffect {C S : Type}
    (ctrlStep : C → KeyState → ℚ → C) (g : Game C S) (keys : KeyState)
    (dt : ℚ) :
    (process_input ctrlStep g keys dt).postProcEffect =
      if keys .f10 then 10 else if keys .f9 then 9 else
        if keys .f8 then 8 else if keys .f7 then 7 else
          if keys .f6 then 6 else if keys .f5 then 5 else
            if keys .f4 then 4 else if keys .f3 then 3 else
              if keys .f2 then 2 else if keys .f1 then 1 else
                g.postProcEffect := by
  unfold process_input
  cases hesc : keys GKey.escape <;>
    simp [hesc, effectKeyCheck, apply_ite Game.postProcEffect]

@[simp] theorem processEvent_shouldClose {C S : Type} (g : Game C S)
    (e : WindowEvent) : (processEvent g e).shouldClose = g.shouldClose := by
  cases e <;> rfl

@[simp] theorem processEvent_postProcEffect {C S : Type} (g : Game C S)
    (e : WindowEvent) :
    (processEvent g e).postProcEffect = g.postProcEffect := by
  cases e <;> rfl

@[simp] theorem processEvent_controller {C S : Type} (g : Game C S)
    (e : WindowEvent) : (processEvent g e).controller = g.controller := by
  cases e <;> rfl

@[simp] theorem processEvent_frameLimiter {C S : Type} (g : Game C S)
    (e : WindowEvent) : (processEvent g e).frameLimiter = g.frameLimiter := by
  cases e <;> rfl

@[simp] theorem processEvent_fullscreen {C S : Type} (g : Game C S)
    (e : WindowEvent) :
    (processEvent g e).settings.is_fullscreen = g.settings.is_fullscreen := by
  cases e <;> rfl

@[simp] theorem processEvent_fps {C S : Type} (g : Game C S)
    (e : WindowEvent) : (processEvent g e).settings.fps = g.settings.fps := by
  cases e <;> rfl

theorem process_events_cons {C S : Type} (g : Game C S) (e : WindowEvent)
    (es : List WindowEvent) :
    process_events g (e :: es) = process_events (processEvent g e) es := rfl

theorem process_events_shouldClose {C S : Type} (g : Game C S)
    (es : List WindowEvent) :
    (process_events g es).shouldClose = g.shouldClose := by
  induction es generalizing g with
  | nil => rfl
  | cons e es ih => rw [process_events_cons, ih, processEvent_shouldClose]

theorem process_events_postProcEffect {C S : Type} (g : Game C S)
    (es : List WindowEvent) :
    (process_events g es).postProcEffect = g.postProcEffect := by
  induction es generalizing g with
  | nil => rfl
  | cons e es ih => rw [process_events_cons, ih, processEvent_postProcEffect]

theorem process_events_controller {C S : Type} (g : Game C S)
    (es : List WindowEvent) :
    (process_events g es).controller = g.controller := by
  induction es generalizing g with
  | nil => rfl
  | cons e es ih => rw [process_events_cons, ih, processEvent_controller]

theorem process_events_frameLimiter {C S : Type} (g : Game C S)
    (es : List WindowEvent) :
    (process_events g es).frameLimiter = g.frameLimiter := by
  induction es generalizing g with
  | nil => rfl
  | cons e es ih => rw [process_events_cons, ih, processEvent_frameLimiter]

theorem process_events_fullscreen {C S : Type} (g : Game C S)
    (es : List WindowEvent) :
    (process_events g es).settings.is_fullscreen = g.settings.is_fullscreen := by
  induction es generalizing g with
  | nil => rfl
  | cons e es ih => rw [process_events_cons, ih, processEvent_fullscreen]

theorem process_events_fps {C S : Type} (g : Game C S)
    (es : List WindowEvent) :
    (process_events g es).settings.fps = g.settings.fps := by
  induction es generalizing g with
  | nil => rfl
  | cons e es ih => rw [process_events_cons, ih, processEvent_fps]

theorem process_input_frameLimiter {C S : Type}
    (ctrlStep : C → KeyState → ℚ → C) (g : Game C S) (keys : KeyState)
    (dt : ℚ) :
    (process_input ctrlStep g keys dt).frameLimiter = g.frameLimiter := by
  unfold process_input
  cases hesc : keys GKey.escape <;> simp [hesc]

/-- Every action emitted by the idle loop is a `stop` check, an event
poll, or a sleep. -/
theorem idleTrace_mem (fl : FrameLimiter) (ts : List ℚ) (a : GAction)
    (h : a ∈ idleTrace fl ts) :
    a = GAction.limiterStopCall true ∨ a = GAction.limiterStopCall false ∨
      a = GAction.pollEvents ∨ a = GAction.sleepCall := by
  induction ts with
  | nil => simp [idleTrace] at h
  | cons t ts ih =>
      rw [idleTrace] at h
      split at h
      · simp only [List.mem_cons] at h
        rcases h with h | h | h | h
        · exact Or.inl h
        · exact Or.inr (Or.inr (Or.inl h))
        · exact Or.inr (Or.inr (Or.inr h))
        · exact ih (by simpa using h)
      · simp only [List.mem_singleton] at h
        exact Or.inr (Or.inl h)

/-- When some `stop` check in the time list returns `false`, the idle
loop runs `stop`-poll-sleep exactly up to the first such check and then
exits on a final `stop() = false`. -/
theorem idleTrace_exit (fl : FrameLimiter) (ts : List ℚ) (k : Nat)
    (h : idleExitIdx fl ts = some k) :
    idleTrace fl ts =
      (List.replicate k
        [GAction.limiterStopCall true, GAction.pollEvents,
          GAction.sleepCall]).flatten ++ [GAction.limiterStopCall false] := by
  induction ts generalizing k with
  | nil => simp [idleExitIdx] at h
  | cons t ts ih =>
      rw [idleExitIdx] at h
      rw [idleTrace]
      split at h
      · rename_i hs
        rw [if_pos hs]
        rcases Option.map_eq_some'.mp h with ⟨j, hj, rfl⟩
        rw [ih j hj]
        simp [List.replicate_succ]
      · rename_i hs
        rw [if_neg hs]
        simp at h
        subst h
        simp

/-- The settings after draining a queue depend only on the settings
before it, not on the rest of the game state. -/
theorem process_events_settings_congr {C S : Type} (g g' : Game C S)
    (es : List WindowEvent) (h : g.settings = g'.settings) :
    (process_events g es).settings = (process_events g' es).settings := by
  induction es generalizing g g' with
  | nil => exact h
  | cons e es ih =>
      rw [process_events_cons, process_events_cons]
      apply ih
      cases e with
      | framebufferSize w h' => simp [processEvent, h]
      | otherEvent n => exact h

theorem process_events_append {C S : Type} (g : Game C S)
    (l1 l2 : List WindowEvent) :
    process_events g (l1 ++ l2) = process_events (process_events g l1) l2 := by
  simp [process_events]

/-- No idle-loop action is a scene call or a buffer swap. -/
theorem idleTrace_countP_zero (fl : FrameLimiter) (ts : List ℚ)
    (p : GAction → Bool) (hp1 : p (GAction.limiterStopCall true) = false)
    (hp2 : p (GAction.limiterStopCall false) = false)
    (hp3 : p GAction.pollEvents = false)
    (hp4 : p GAction.sleepCall = false) :
    (idleTrace fl ts).countP p = 0 := by
  rw [List.countP_eq_zero]
  intro a ha
  rcases idleTrace_mem fl ts a ha with rfl | rfl | rfl | rfl <;>
    simp [hp1, hp2, hp3, hp4]

/-- The post-process effect after a full frame: the F-key conditional on
top of the incoming value (event processing never touches it). -/
theorem frame_postProcEffect {C S : Type} (ctrlStep : C → KeyState → ℚ → C)
    (sceneUpd : S → ℚ → List C → S) (g : Game C S) (inp : FrameInput) :
    (frame ctrlStep sceneUpd g inp).1.postProcEffect =
      if inp.keys .f10 then 10 else if inp.keys .f9 then 9 else
        if inp.keys .f8 then 8 else if inp.keys .f7 then 7 else
          if inp.keys .f6 then 6 else if inp.keys .f5 then 5 else
            if inp.keys .f4 then 4 else if inp.keys .f3 then 3 else
              if inp.keys .f2 then 2 else if inp.keys .f1 then 1 else
                g.postProcEffect := by
  have h : (frame ctrlStep sceneUpd g inp).1.postProcEffect =
      (process_input ctrlStep
        (process_events
          { g with frameLimiter := (g.frameLimiter.start inp.now).2 }
          inp.events) inp.keys (g.frameLimiter.start inp.now).1).postProcEffect :=
    rfl
  rw [h, process_input_postProcEffect, process_events_postProcEffect]

theorem frame_frameLimiter {C S : Type} (ctrlStep : C → KeyState → ℚ → C)
    (sceneUpd : S → ℚ → List C → S) (g : Game C S) (inp : FrameInput) :
    (frame ctrlStep sceneUpd g inp).1.frameLimiter =
      (g.frameLimiter.start inp.now).2 := by
  have h : (frame ctrlStep sceneUpd g inp).1.frameLimiter =
      (process_input ctrlStep
        (process_events
          { g with frameLimiter := (g.frameLimiter.start inp.now).2 }
          inp.events) inp.keys (g.frameLimiter.start inp.now).1).frameLimiter :=
    rfl
  rw [h, process_input_frameLimiter, process_events_frameLimiter]

/-- The trace of one loop-body iteration, spelled out: the straight-line
sequence of the body of `Game::run` followed by the idle loop driven by the
limiter state recorded at `start()`. -/
theorem frame_trace {C S : Type} (ctrlStep : C → KeyState → ℚ → C)
    (sceneUpd : S → ℚ → List C → S) (g : Game C S) (inp : FrameInput) :
    (frame ctrlStep sceneUpd g inp).2 =
      GAction.limiterStart (g.frameLimiter.start inp.now).1 ::
        GAction.makeCurrent :: GAction.pollEvents ::
        (processEventsTrace inp.events ++
          processInputTrace
            (process_events
              { g with frameLimiter := (g.frameLimiter.start inp.now).2 }
              inp.events) ++
          GAction.sceneUpdateCall (g.frameLimiter.start inp.now).1 ::
          GAction.fbBind :: GAction.clearOffscreen ::
          GAction.sceneDrawCall
            { aspect :=
                ((process_input ctrlStep
                  (process_events
                    { g with
                        frameLimiter := (g.frameLimiter.start inp.now).2 }
                    inp.events) inp.keys
                  (g.frameLimiter.start inp.now).1).settings.width : ℚ) /
                ((process_input ctrlStep
                  (process_events
                    { g with
                        frameLimiter := (g.frameLimiter.start inp.now).2 }
                    inp.events) inp.keys
                  (g.frameLimiter.start inp.now).1).settings.height : ℚ)
              fovy := 70, znear := 1 / 10, zfar := 100 } ::
          GAction.fbUnbind :: GAction.clearVisible ::
          GAction.postProcess
            (process_input ctrlStep
              (process_events
                { g with frameLimiter := (g.frameLimiter.start inp.now).2 }
                inp.events) inp.keys
              (g.frameLimiter.start inp.now).1).postProcEffect ::
          GAction.swapBuffers ::
          idleTrace ((g.frameLimiter.start inp.now).2) inp.idleTimes) := by
  have h : (frame ctrlStep sceneUpd g inp).2 =
      GAction.limiterStart (g.frameLimiter.start inp.now).1 ::
        GAction.makeCurrent :: GAction.pollEvents ::
        (processEventsTrace inp.events ++
          processInputTrace
            (process_events
              { g with frameLimiter := (g.frameLimiter.start inp.now).2 }
              inp.events) ++
          GAction.sceneUpdateCall (g.frameLimiter.start inp.now).1 ::
          GAction.fbBind :: GAction.clearOffscreen ::
          GAction.sceneDrawCall
            { aspect :=
                ((process_input ctrlStep
                  (process_events
                    { g with
                        frameLimiter := (g.frameLimiter.start inp.now).2 }
                    inp.events) inp.keys
                  (g.frameLimiter.start inp.now).1).settings.width : ℚ) /
                ((process_input ctrlStep
                  (process_events
                    { g with
                        frameLimiter := (g.frameLimiter.start inp.now).2 }
                    inp.events) inp.keys
                  (g.frameLimiter.start inp.now).1).settings.height : ℚ)
              fovy := 70, znear := 1 / 10, zfar := 100 } ::
          GAction.fbUnbind :: GAction.clearVisible ::
          GAction.postProcess
            (process_input ctrlStep
              (process_events
                { g with frameLimiter := (g.frameLimiter.start inp.now).2 }
                inp.events) inp.keys
              (g.frameLimiter.start inp.now).1).postProcEffect ::
          GAction.swapBuffers ::
          idleTrace ((frame ctrlStep sceneUpd g inp).1.frameLimiter)
            inp.idleTimes) := rfl
  rw [h, frame_frameLimiter]

/-- One unfolding step of the main loop while the close flag is unset. -/
theorem runLoop_cons_open {C S : Type} (ctrlStep : C → KeyState → ℚ → C)
    (sceneUpd : S → ℚ → List C → S) (g : Game C S) (inp : FrameInput)
    (rest : List FrameInput) (hclose : g.shouldClose = false) :
    (runLoop ctrlStep sceneUpd g (inp :: rest)).2 =
      (frame ctrlStep sceneUpd g inp).2 ::
        (runLoop ctrlStep sceneUpd (frame ctrlStep sceneUpd g inp).1
          rest).2 := by
  rw [runLoop, hclose]
  simp

/-! ### Claims -/

/-- C3: the claim says event processing guards zero-or-negative
framebuffer dimensions by skipping the offscreen-target reallocation and
not updating the settings.  The code has no such guard: a
`FramebufferSize(0, 0)` event still triggers the viewport call, the
settings update, and `frame_buffer.resize(0, 0)`; a negative width is
even wrapped to a huge `u32` by the `as u32` cast. -/
theorem degenerate_resize_not_skipped :
    (process_events (Game.new GameSettings.default () () () : Game Unit Unit)
        [WindowEvent.framebufferSize 0 0]).fbWidth = 0
  ∧ (process_events (Game.new GameSettings.default () () () : Game Unit Unit)
        [WindowEvent.framebufferSize 0 0]).fbHeight = 0
  ∧ (process_events (Game.new GameSettings.default () () () : Game Unit Unit)
        [WindowEvent.framebufferSize 0 0]).settings.width = 0
  ∧ (process_events (Game.new GameSettings.default () () () : Game Unit Unit)
        [WindowEvent.framebufferSize 0 0]).settings.height = 0
  ∧ processEventsTrace [WindowEvent.framebufferSize 0 0] =
      [GAction.viewportCall 0 0, GAction.fbResize 0 0]
  ∧ (process_events (Game.new GameSettings.default () () () : Game Unit Unit)
        [WindowEvent.framebufferSize (-1) 600]).settings.width =
      4294967295 := by
  refine ⟨rfl, rfl, ?_, ?_, rfl, ?_⟩ <;> decide

/-- C4: if F3 and F7 both read as pressed in a frame (and no later
function key does), the post-process effect selector is 7 at the end of
the input processing of that frame: the F1..F10 checks run in fixed order and
each later pressed key overwrites the selector. -/
theorem f3_f7_last_check_wins {C S : Type} (ctrlStep : C → KeyState → ℚ → C)
    (g : Game C S) (keys : KeyState) (dt : ℚ)
    (_h3 : keys GKey.f3 = true) (h7 : keys GKey.f7 = true)
    (h8 : keys GKey.f8 = false) (h9 : keys GKey.f9 = false)
    (h10 : keys GKey.f10 = false) :
    (process_input ctrlStep g keys dt).postProcEffect = 7 := by
  rw [process_input_postProcEffect]
  simp [h7, h8, h9, h10]

/-- C4 witness: concrete key state holding exactly F3 and F7. -/
theorem f3_f7_last_check_wins_witness :
    (process_input (fun (c : Unit) (_ : KeyState) (_ : ℚ) => c)
        (Game.new GameSettings.default () () () : Game Unit Unit)
        (fun kk => decide (kk = GKey.f3 ∨ kk = GKey.f7))
        0).postProcEffect = 7 :=
  f3_f7_last_check_wins _ _ _ _ rfl rfl rfl rfl rfl

/-- C6: for configured `fps > 0`, `stop()` returns `false` exactly once
at least `1/fps` seconds of wall time have elapsed since the matching
`start()`, and returns `true` while less has elapsed. -/
theorem frameLimiter_stop_budget (fps : Nat) (t now : ℚ) (hfps : 0 < fps) :
    ((((FrameLimiter.new fps).start t).2).stop now = false ↔
        1 / (fps : ℚ) ≤ now - t)
  ∧ (now - t < 1 / (fps : ℚ) →
      (((FrameLimiter.new fps).start t).2).stop now = true) := by
  have hne : fps ≠ 0 := Nat.pos_iff_ne_zero.mp hfps
  constructor
  · simp [FrameLimiter.stop, FrameLimiter.start, FrameLimiter.new, hne,
      not_lt]
  · intro h
    rw [one_div] at h
    simp [FrameLimiter.stop, FrameLimiter.start, FrameLimiter.new, hne, h]

/-- C6 witness: at 30 fps, one second past the frame start exhausts the
budget, and a quarter of the frame duration does not. -/
theorem frameLimiter_stop_budget_witness :
    (((((FrameLimiter.new 30).start 2).2).stop 3 = false ↔
        1 / ((30 : Nat) : ℚ) ≤ 3 - 2)
      ∧ (3 - 2 < 1 / ((30 : Nat) : ℚ) →
          (((FrameLimiter.new 30).start 2).2).stop 3 = true))
  ∧ ((((FrameLimiter.new 30).start 2).2).stop (2 + 1 / 120) = true) := by
  refine ⟨frameLimiter_stop_budget 30 2 3 (by decide), ?_⟩
  exact (frameLimiter_stop_budget 30 2 (2 + 1 / 120) (by decide)).2
    (by norm_num)

/-- C7: for `fps = 0` the target frame duration is the guarded minimum 1
(no division by zero), it is positive, and the idle loop still
terminates: one target duration after the frame start, `stop()` returns
`false`. -/
theorem frameLimiter_fps_zero_guard :
    (FrameLimiter.new 0).targetDuration = 1
  ∧ 0 < (FrameLimiter.new 0).targetDuration
  ∧ ∀ t : ℚ, (((FrameLimiter.new 0).start t).2).stop
      (t + (FrameLimiter.new 0).targetDuration) = false := by
  refine ⟨rfl, by norm_num [FrameLimiter.new], ?_⟩
  intro t
  have ht : t + (1 : ℚ) - t = 1 := by ring
  simp [FrameLimiter.new, FrameLimiter.stop, FrameLimiter.start, ht]

/-- C7 witness: the guarded limiter at a concrete frame start. -/
theorem frameLimiter_fps_zero_guard_witness :
    (((FrameLimiter.new 0).start 5).2).stop
      (5 + (FrameLimiter.new 0).targetDuration) = false :=
  frameLimiter_fps_zero_guard.2.2 5

/-- C9: the `GameSettings` fields are mutated only while processing
framebuffer-resize events: `process_input` leaves the settings unchanged,
a full frame ends with exactly the settings produced by the event-drain
step, and even the event-drain step never changes `is_fullscreen` or
`fps`. -/
theorem settings_mutated_only_by_resize {C S : Type}
    (ctrlStep : C → KeyState → ℚ → C) (sceneUpd : S → ℚ → List C → S)
    (g : Game C S) (keys : KeyState) (dt : ℚ) (inp : FrameInput) :
    (process_input ctrlStep g keys dt).settings = g.settings
  ∧ (frame ctrlStep sceneUpd g inp).1.settings =
      (process_events g inp.events).settings
  ∧ (process_events g inp.events).settings.is_fullscreen =
      g.settings.is_fullscreen
  ∧ (process_events g inp.events).settings.fps = g.settings.fps := by
  refine ⟨process_input_settings _ _ _ _, ?_, process_events_fullscreen _ _,
    process_events_fps _ _⟩
  have h : (frame ctrlStep sceneUpd g inp).1.settings =
      (process_events
        { g with frameLimiter := (g.frameLimiter.start inp.now).2 }
        inp.events).settings := by
    have h2 : (frame ctrlStep sceneUpd g inp).1.settings =
        (process_input ctrlStep
          (process_events
            { g with frameLimiter := (g.frameLimiter.start inp.now).2 }
            inp.events) inp.keys (g.frameLimiter.start inp.now).1).settings :=
      rfl
    rw [h2, process_input_settings]
  rw [h]
  exact process_events_settings_congr _ _ _ rfl

/-- C9 witness: a concrete frame (one resize event queued, F5 and a
controller key held) whose settings afterwards are exactly those the
event-drain step produced. -/
theorem settings_mutated_only_by_resize_witness :
    (process_input (fun (c : Unit) (_ : KeyState) (_ : ℚ) => c)
        (Game.new GameSettings.default () () () : Game Unit Unit)
        (fun kk => decide (kk = GKey.f5 ∨ kk = GKey.other 0))
        1).settings = (Game.new GameSettings.default () () () :
          Game Unit Unit).settings
  ∧ (frame (fun (c : Unit) (_ : KeyState) (_ : ℚ) => c)
        (fun (s : Unit) (_ : ℚ) (_ : List Unit) => s)
        (Game.new GameSettings.default () () ())
        { now := 1, events := [WindowEvent.framebufferSize 320 200]
          keys := fun kk => decide (kk = GKey.f5 ∨ kk = GKey.other 0)
          idleTimes := [] }).1.settings =
      (process_events (Game.new GameSettings.default () () () : Game Unit Unit)
        [WindowEvent.framebufferSize 320 200]).settings
  ∧ (process_events (Game.new GameSettings.default () () () : Game Unit Unit)
        [WindowEvent.framebufferSize 320 200]).settings.is_fullscreen =
      (Game.new GameSettings.default () () () :
        Game Unit Unit).settings.is_fullscreen
  ∧ (process_events (Game.new GameSettings.default () () () : Game Unit Unit)
        [WindowEvent.framebufferSize 320 200]).settings.fps =
      (Game.new GameSettings.default () () () :
        Game Unit Unit).settings.fps :=
  settings_mutated_only_by_resize _ _ _ _ 1
    { now := 1, events := [WindowEvent.framebufferSize 320 200]
      keys := fun kk => decide (kk = GKey.f5 ∨ kk = GKey.other 0)
      idleTimes := [] }

set_option maxHeartbeats 1000000 in
/-- C10: the post-process effect selector starts at 0; input processing
either leaves it unchanged or sets a value in 1..10; a whole frame keeps
it in 0..10 (event processing never touches it); and once it is nonzero
no frame can return it to 0 — no key is bound to an effect-off value. -/
theorem effect_selector_invariant {C S : Type}
    (ctrlStep : C → KeyState → ℚ → C) (sceneUpd : S → ℚ → List C → S)
    (settings : GameSettings) (c1 c2 : C) (s : S) (g : Game C S)
    (keys : KeyState) (dt : ℚ) (inp : FrameInput) :
    (Game.new settings c1 c2 s).postProcEffect = 0
  ∧ (process_events g inp.events).postProcEffect = g.postProcEffect
  ∧ ((process_input ctrlStep g keys dt).postProcEffect = g.postProcEffect ∨
      (1 ≤ (process_input ctrlStep g keys dt).postProcEffect ∧
        (process_input ctrlStep g keys dt).postProcEffect ≤ 10))
  ∧ (0 ≤ g.postProcEffect → g.postProcEffect ≤ 10 →
      0 ≤ (frame ctrlStep sceneUpd g inp).1.postProcEffect ∧
        (frame ctrlStep sceneUpd g inp).1.postProcEffect ≤ 10)
  ∧ (g.postProcEffect ≠ 0 →
      (frame ctrlStep sceneUpd g inp).1.postProcEffect ≠ 0) := by
  refine ⟨rfl, process_events_postProcEffect _ _, ?_, ?_, ?_⟩
  · rw [process_input_postProcEffect]
    split_ifs <;> omega
  · intro h0 h10
    rw [frame_postProcEffect]
    split_ifs <;> omega
  · intro hne
    rw [frame_postProcEffect]
    split_ifs <;> omega

/-- C10 witness: a concrete game whose selector was 3; after a frame
with F2 held the selector is 2 — in range and still nonzero. -/
theorem effect_selector_invariant_witness :
    ((Game.new GameSettings.default () () () : Game Unit Unit).postProcEffect
        = 0)
  ∧ (0 ≤ (frame (fun (c : Unit) (_ : KeyState) (_ : ℚ) => c)
        (fun (s : Unit) (_ : ℚ) (_ : List Unit) => s)
        { Game.new GameSettings.default () () () with postProcEffect := 3 }
        { now := 1, events := [], keys := fun kk => decide (kk = GKey.f2)
          idleTimes := [] }).1.postProcEffect
      ∧ (frame (fun (c : Unit) (_ : KeyState) (_ : ℚ) => c)
        (fun (s : Unit) (_ : ℚ) (_ : List Unit) => s)
        { Game.new GameSettings.default () () () with postProcEffect := 3 }
        { now := 1, events := [], keys := fun kk => decide (kk = GKey.f2)
          idleTimes := [] }).1.postProcEffect ≤ 10)
  ∧ ((frame (fun (c : Unit) (_ : KeyState) (_ : ℚ) => c)
        (fun (s : Unit) (_ : ℚ) (_ : List Unit) => s)
        { Game.new GameSettings.default () () () with postProcEffect := 3 }
        { now := 1, events := [], keys := fun kk => decide (kk = GKey.f2)
          idleTimes := [] }).1.postProcEffect ≠ 0) := by
  refine ⟨(effect_selector_invariant (fun (c : Unit) (_ : KeyState) (_ : ℚ) => c)
      (fun (s : Unit) (_ : ℚ) (_ : List Unit) => s) GameSettings.default () ()
      ()
      { Game.new GameSettings.default () () () with postProcEffect := 3 }
      (fun kk => decide (kk = GKey.f2)) 1
      { now := 1, events := [], keys := fun kk => decide (kk = GKey.f2)
        idleTimes := [] }).1, ?_, ?_⟩
  · exact (effect_selector_invariant
      (fun (c : Unit) (_ : KeyState) (_ : ℚ) => c)
      (fun (s : Unit) (_ : ℚ) (_ : List Unit) => s) GameSettings.default () ()
      ()
      { Game.new GameSettings.default () () () with postProcEffect := 3 }
      (fun kk => decide (kk = GKey.f2)) 1
      { now := 1, events := [], keys := fun kk => decide (kk = GKey.f2)
        idleTimes := [] }).2.2.2.1 (by decide) (by decide)
  · exact (effect_selector_invariant
      (fun (c : Unit) (_ : KeyState) (_ : ℚ) => c)
      (fun (s : Unit) (_ : ℚ) (_ : List Unit) => s) GameSettings.default () ()
      ()
      { Game.new GameSettings.default () () () with postProcEffect := 3 }
      (fun kk => decide (kk = GKey.f2)) 1
      { now := 1, events := [], keys := fun kk => decide (kk = GKey.f2)
        idleTimes := [] }).2.2.2.2 (by decide)

/-- C2: if Escape reads as pressed during the input-processing step of a
frame, the close flag is set by the end of that step, the frame still
completes (its state is the full frame result), and the loop — which
observes the flag at the start of the next iteration — performs no
further frames. -/
theorem escape_closes_loop {C S : Type} (ctrlStep : C → KeyState → ℚ → C)
    (sceneUpd : S → ℚ → List C → S) (g : Game C S) (inp : FrameInput)
    (rest : List FrameInput) (hesc : inp.keys GKey.escape = true) :
    (process_input ctrlStep
        (process_events
          { g with frameLimiter := (g.frameLimiter.start inp.now).2 }
          inp.events) inp.keys (g.frameLimiter.start inp.now).1).shouldClose =
      true
  ∧ (frame ctrlStep sceneUpd g inp).1.shouldClose = true
  ∧ (runLoop ctrlStep sceneUpd (frame ctrlStep sceneUpd g inp).1 rest).2 =
      [] := by
  have h1 : (process_input ctrlStep
      (process_events
        { g with frameLimiter := (g.frameLimiter.start inp.now).2 }
        inp.events) inp.keys (g.frameLimiter.start inp.now).1).shouldClose =
      true := by
    rw [process_input_shouldClose, hesc, Bool.or_true]
  have h2 : (frame ctrlStep sceneUpd g inp).1.shouldClose = true := h1
  refine ⟨h1, h2, ?_⟩
  cases rest with
  | nil => rfl
  | cons i l => simp [runLoop, h2]

/-- C2 witness: Escape held in a concrete frame. -/
theorem escape_closes_loop_witness :
    (process_input (fun (c : Unit) (_ : KeyState) (_ : ℚ) => c)
        (process_events
          { (Game.new GameSettings.default () () () : Game Unit Unit) with
            frameLimiter :=
              (((Game.new GameSettings.default () () () : Game Unit Unit)
                ).frameLimiter.start 1).2 }
          [])
        (fun kk => decide (kk = GKey.escape))
        (((Game.new GameSettings.default () () () : Game Unit Unit)
          ).frameLimiter.start 1).1).shouldClose = true
  ∧ (frame (fun (c : Unit) (_ : KeyState) (_ : ℚ) => c)
        (fun (s : Unit) (_ : ℚ) (_ : List Unit) => s)
        (Game.new GameSettings.default () () ())
        { now := 1, events := [], keys := fun kk => decide (kk = GKey.escape)
          idleTimes := [] }).1.shouldClose = true
  ∧ (runLoop (fun (c : Unit) (_ : KeyState) (_ : ℚ) => c)
        (fun (s : Unit) (_ : ℚ) (_ : List Unit) => s)
        (frame (fun (c : Unit) (_ : KeyState) (_ : ℚ) => c)
          (fun (s : Unit) (_ : ℚ) (_ : List Unit) => s)
          (Game.new GameSettings.default () () ())
          { now := 1, events := []
            keys := fun kk => decide (kk = GKey.escape)
            idleTimes := [] }).1
        [{ now := 2, events := [], keys := fun _ => false
           idleTimes := [] }]).2 = [] :=
  escape_closes_loop (fun (c : Unit) (_ : KeyState) (_ : ℚ) => c)
    (fun (s : Unit) (_ : ℚ) (_ : List Unit) => s)
    (Game.new GameSettings.default () () ())
    { now := 1, events := [], keys := fun kk => decide (kk = GKey.escape)
      idleTimes := [] }
    [{ now := 2, events := [], keys := fun _ => false, idleTimes := [] }]
    rfl

/-- The per-event trace of draining a queue of resize events: one
viewport call and one `FrameBuffer::resize` call per queued event, in
queue order. -/
theorem processEventsTrace_resizes (dims : List (Int × Int)) :
    processEventsTrace
        (dims.map fun d => WindowEvent.framebufferSize d.1 d.2) =
      dims.flatMap fun d =>
        [GAction.viewportCall d.1 d.2, GAction.fbResize d.1 d.2] := by
  induction dims with
  | nil => rfl
  | cons d ds ih =>
      simp only [List.map_cons, List.flatMap_cons, processEventsTrace] at *
      rw [← ih]
      rfl

/-- C5: draining a queue of `N ≥ 1` resize events processes every queued
event exactly once in order (the trace holds one viewport call and one
resize call per event), and afterwards the dimensions of the offscreen target,
the stored settings, and the viewport all reflect the last event. -/
theorem resize_drain_last {C S : Type} (g : Game C S)
    (dims : List (Int × Int)) (hne : dims ≠ []) :
    processEventsTrace
        (dims.map fun d => WindowEvent.framebufferSize d.1 d.2) =
      (dims.flatMap fun d =>
        [GAction.viewportCall d.1 d.2, GAction.fbResize d.1 d.2])
  ∧ (process_events g
        (dims.map fun d => WindowEvent.framebufferSize d.1 d.2)).fbWidth =
      (dims.getLast hne).1
  ∧ (process_events g
        (dims.map fun d => WindowEvent.framebufferSize d.1 d.2)).fbHeight =
      (dims.getLast hne).2
  ∧ (process_events g
        (dims.map fun d =>
          WindowEvent.framebufferSize d.1 d.2)).settings.width =
      i32ToU32 (dims.getLast hne).1
  ∧ (process_events g
        (dims.map fun d =>
          WindowEvent.framebufferSize d.1 d.2)).settings.height =
      i32ToU32 (dims.getLast hne).2
  ∧ (process_events g
        (dims.map fun d => WindowEvent.framebufferSize d.1 d.2)).viewport =
      some ((dims.getLast hne).1, (dims.getLast hne).2) := by
  refine ⟨processEventsTrace_resizes dims, ?_⟩
  rcases List.eq_nil_or_concat dims with rfl | ⟨ds, d, rfl⟩
  · exact absurd rfl hne
  · have hlast : (ds.concat d).getLast hne = d := by simp
    rw [hlast, List.concat_eq_append, List.map_append, List.map_singleton,
      process_events_append]
    simp [process_events, processEvent]

/-- C5 witness: two queued resize events; the second one wins
everywhere and both appear exactly once, in order, in the trace. -/
theorem resize_drain_last_witness :
    processEventsTrace
        [WindowEvent.framebufferSize (-5) 4,
          WindowEvent.framebufferSize 800 600] =
      [GAction.viewportCall (-5) 4, GAction.fbResize (-5) 4,
        GAction.viewportCall 800 600, GAction.fbResize 800 600]
  ∧ (process_events (Game.new GameSettings.default () () () : Game Unit Unit)
        [WindowEvent.framebufferSize (-5) 4,
          WindowEvent.framebufferSize 800 600]).fbWidth = 800
  ∧ (process_events (Game.new GameSettings.default () () () : Game Unit Unit)
        [WindowEvent.framebufferSize (-5) 4,
          WindowEvent.framebufferSize 800 600]).fbHeight = 600
  ∧ (process_events (Game.new GameSettings.default () () () : Game Unit Unit)
        [WindowEvent.framebufferSize (-5) 4,
          WindowEvent.framebufferSize 800 600]).settings.width = 800
  ∧ (process_events (Game.new GameSettings.default () () () : Game Unit Unit)
        [WindowEvent.framebufferSize (-5) 4,
          WindowEvent.framebufferSize 800 600]).settings.height = 600
  ∧ (process_events (Game.new GameSettings.default () () () : Game Unit Unit)
        [WindowEvent.framebufferSize (-5) 4,
          WindowEvent.framebufferSize 800 600]).viewport =
      some (800, 600) := by
  have h := resize_drain_last
    (Game.new GameSettings.default () () () : Game Unit Unit)
    [((-5 : Int), (4 : Int)), ((800 : Int), (600 : Int))] (by decide)
  simpa [i32ToU32] using h

/-- C1: while the close flag is unset, an iteration of the main loop
executes exactly this sequence in this order: `frame_limiter.start()`
yielding `dt`, make the context current, poll OS events, drain and
process the event queue, poll the keyboard and update each controller,
`scene.update(dt, controllers)`, bind the offscreen target / clear /
`scene.draw` / unbind, clear the visible framebuffer and run the
post-process composite, swap buffers, then `k` poll+sleep idle
iterations, exactly until `frame_limiter.stop()` returns `false` (at the
`k`-th check). -/
theorem run_frame_sequence {C S : Type} (ctrlStep : C → KeyState → ℚ → C)
    (sceneUpd : S → ℚ → List C → S) (g : Game C S) (inp : FrameInput)
    (rest : List FrameInput) (k : Nat) (hclose : g.shouldClose = false)
    (hexit : idleExitIdx ((g.frameLimiter.start inp.now).2) inp.idleTimes =
      some k) :
    (runLoop ctrlStep sceneUpd g (inp :: rest)).2 =
      (GAction.limiterStart (g.frameLimiter.start inp.now).1 ::
        GAction.makeCurrent :: GAction.pollEvents ::
        (processEventsTrace inp.events ++
          processInputTrace
            (process_events
              { g with frameLimiter := (g.frameLimiter.start inp.now).2 }
              inp.events) ++
          GAction.sceneUpdateCall (g.frameLimiter.start inp.now).1 ::
          GAction.fbBind :: GAction.clearOffscreen ::
          GAction.sceneDrawCall
            { aspect :=
                ((process_input ctrlStep
                  (process_events
                    { g with
                        frameLimiter := (g.frameLimiter.start inp.now).2 }
                    inp.events) inp.keys
                  (g.frameLimiter.start inp.now).1).settings.width : ℚ) /
                ((process_input ctrlStep
                  (process_events
                    { g with
                        frameLimiter := (g.frameLimiter.start inp.now).2 }
                    inp.events) inp.keys
                  (g.frameLimiter.start inp.now).1).settings.height : ℚ)
              fovy := 70, znear := 1 / 10, zfar := 100 } ::
          GAction.fbUnbind :: GAction.clearVisible ::
          GAction.postProcess
            (process_input ctrlStep
              (process_events
                { g with frameLimiter := (g.frameLimiter.start inp.now).2 }
                inp.events) inp.keys
              (g.frameLimiter.start inp.now).1).postProcEffect ::
          GAction.swapBuffers ::
          ((List.replicate k
            [GAction.limiterStopCall true, GAction.pollEvents,
              GAction.sleepCall]).flatten ++
            [GAction.limiterStopCall false]))) ::
      (runLoop ctrlStep sceneUpd (frame ctrlStep sceneUpd g inp).1 rest).2 := by
  rw [runLoop_cons_open ctrlStep sceneUpd g inp rest hclose,
    frame_trace ctrlStep sceneUpd g inp,
    idleTrace_exit ((g.frameLimiter.start inp.now).2) inp.idleTimes k hexit]

/-- C1 witness: a fresh default game, one frame with no events and no
keys, whose single idle `stop` check immediately exhausts the budget. -/
theorem run_frame_sequence_witness :
    (runLoop (fun (c : Unit) (_ : KeyState) (_ : ℚ) => c)
        (fun (s : Unit) (_ : ℚ) (_ : List Unit) => s)
        (Game.new GameSettings.default () () ())
        [{ now := 1, events := [], keys := fun _ => false,
           idleTimes := [5] }]).2 =
      [[GAction.limiterStart 1, GAction.makeCurrent, GAction.pollEvents,
        GAction.pollKeyboard, GAction.ctrlUpdate 0, GAction.ctrlUpdate 1,
        GAction.sceneUpdateCall 1, GAction.fbBind, GAction.clearOffscreen,
        GAction.sceneDrawCall
          { aspect := 640 / 480, fovy := 70, znear := 1 / 10, zfar := 100 },
        GAction.fbUnbind, GAction.clearVisible, GAction.postProcess 0,
        GAction.swapBuffers, GAction.limiterStopCall false]] := by
  have h := run_frame_sequence (fun (c : Unit) (_ : KeyState) (_ : ℚ) => c)
    (fun (s : Unit) (_ : ℚ) (_ : List Unit) => s)
    (Game.new GameSettings.default () () ())
    { now := 1, events := [], keys := fun _ => false, idleTimes := [5] }
    [] 0 rfl (by norm_num [idleExitIdx, FrameLimiter.stop, FrameLimiter.start,
      FrameLimiter.new, Game.new, GameSettings.default])
  rw [h]
  rw [process_input_postProcEffect]
  norm_num [runLoop, processEventsTrace, processInputTrace, process_events,
    process_input_settings, process_events_postProcEffect, Game.new,
    GameSettings.default, FrameLimiter.new, FrameLimiter.start,
    List.range_succ]

/-- C8: a game constructed with settings 800x600, 30 fps, windowed, run
for one loop iteration with no input and no queued events: the loop runs
exactly one frame; `scene.update` is called exactly once, with
`dt = inp.now ≥ 0`; `scene.draw` is called exactly once, with a
perspective projection of aspect 800/600, vertical field of view 70,
near 1/10 and far 100; and buffers are swapped exactly once. -/
theorem single_iteration_contract {C S : Type}
    (ctrlStep : C → KeyState → ℚ → C) (sceneUpd : S → ℚ → List C → S)
    (c1 c2 : C) (s : S) (inp : FrameInput) (hnow : 0 ≤ inp.now)
    (hev : inp.events = []) (hkeys : ∀ kk, inp.keys kk = false) :
    (runLoop ctrlStep sceneUpd
        (Game.new (⟨false, 800, 600, 30⟩ : GameSettings) c1 c2 s) [inp]).2 =
      [(frame ctrlStep sceneUpd
        (Game.new (⟨false, 800, 600, 30⟩ : GameSettings) c1 c2 s) inp).2]
  ∧ ((frame ctrlStep sceneUpd
        (Game.new (⟨false, 800, 600, 30⟩ : GameSettings) c1 c2 s) inp).2).countP GAction.isSceneUpdate = 1
  ∧ (GAction.sceneUpdateCall inp.now ∈ (frame ctrlStep sceneUpd
        (Game.new (⟨false, 800, 600, 30⟩ : GameSettings) c1 c2 s) inp).2 ∧ 0 ≤ inp.now)
  ∧ ((frame ctrlStep sceneUpd
        (Game.new (⟨false, 800, 600, 30⟩ : GameSettings) c1 c2 s) inp).2).countP GAction.isSceneDraw = 1
  ∧ GAction.sceneDrawCall
      { aspect := (800 : ℚ) / 600, fovy := 70, znear := 1 / 10,
        zfar := 100 } ∈ (frame ctrlStep sceneUpd
        (Game.new (⟨false, 800, 600, 30⟩ : GameSettings) c1 c2 s) inp).2
  ∧ ((frame ctrlStep sceneUpd
        (Game.new (⟨false, 800, 600, 30⟩ : GameSettings) c1 c2 s) inp).2).countP GAction.isSwap = 1 := by
  have htr : (frame ctrlStep sceneUpd
      (Game.new (⟨false, 800, 600, 30⟩ : GameSettings) c1 c2 s) inp).2 =
      GAction.limiterStart inp.now :: GAction.makeCurrent ::
        GAction.pollEvents :: GAction.pollKeyboard ::
        GAction.ctrlUpdate 0 :: GAction.ctrlUpdate 1 ::
        GAction.sceneUpdateCall inp.now :: GAction.fbBind ::
        GAction.clearOffscreen ::
        GAction.sceneDrawCall
          { aspect := (800 : ℚ) / 600, fovy := 70, znear := 1 / 10,
            zfar := 100 } ::
        GAction.fbUnbind :: GAction.clearVisible ::
        GAction.postProcess 0 :: GAction.swapBuffers ::
        idleTrace (((Game.new (⟨false, 800, 600, 30⟩ : GameSettings) c1 c2 s :
          Game C S).frameLimiter.start inp.now).2) inp.idleTimes := by
    rw [frame_trace, hev, process_input_postProcEffect]
    simp [processEventsTrace, process_events, processInputTrace,
      process_input_settings, hkeys, Game.new, FrameLimiter.new,
      FrameLimiter.start, List.range_succ]
  have hz1 := idleTrace_countP_zero
    (((Game.new (⟨false, 800, 600, 30⟩ : GameSettings) c1 c2 s : Game C S).frameLimiter.start inp.now).2)
    inp.idleTimes GAction.isSceneUpdate rfl rfl rfl rfl
  have hz2 := idleTrace_countP_zero
    (((Game.new (⟨false, 800, 600, 30⟩ : GameSettings) c1 c2 s : Game C S).frameLimiter.start inp.now).2)
    inp.idleTimes GAction.isSceneDraw rfl rfl rfl rfl
  have hz3 := idleTrace_countP_zero
    (((Game.new (⟨false, 800, 600, 30⟩ : GameSettings) c1 c2 s : Game C S).frameLimiter.start inp.now).2)
    inp.idleTimes GAction.isSwap rfl rfl rfl rfl
  refine ⟨?_, ?_, ⟨?_, hnow⟩, ?_, ?_, ?_⟩
  · rw [runLoop_cons_open ctrlStep sceneUpd _ inp [] rfl]
    simp [runLoop]
  · rw [htr]
    simp [List.countP_cons, hz1, GAction.isSceneUpdate]
  · rw [htr]
    simp
  · rw [htr]
    simp [List.countP_cons, hz2, GAction.isSceneDraw]
  · rw [htr]
    simp
  · rw [htr]
    simp [List.countP_cons, hz3, GAction.isSwap]

/-- C8 witness: the 800x600, 30 fps, windowed game run for one concrete
iteration with no input. -/
theorem single_iteration_contract_witness :
    (runLoop (fun (c : Unit) (_ : KeyState) (_ : ℚ) => c)
        (fun (s : Unit) (_ : ℚ) (_ : List Unit) => s)
        (Game.new (⟨false, 800, 600, 30⟩ : GameSettings) () () ())
        [{ now := 2, events := [], keys := fun _ => false,
           idleTimes := [9] }]).2 =
      [(frame (fun (c : Unit) (_ : KeyState) (_ : ℚ) => c)
        (fun (s : Unit) (_ : ℚ) (_ : List Unit) => s)
        (Game.new (⟨false, 800, 600, 30⟩ : GameSettings) () () ())
        { now := 2, events := [], keys := fun _ => false,
          idleTimes := [9] }).2]
  ∧ ((frame (fun (c : Unit) (_ : KeyState) (_ : ℚ) => c)
        (fun (s : Unit) (_ : ℚ) (_ : List Unit) => s)
        (Game.new (⟨false, 800, 600, 30⟩ : GameSettings) () () ())
        { now := 2, events := [], keys := fun _ => false,
          idleTimes := [9] }).2).countP GAction.isSceneUpdate = 1
  ∧ (GAction.sceneUpdateCall 2 ∈ (frame
        (fun (c : Unit) (_ : KeyState) (_ : ℚ) => c)
        (fun (s : Unit) (_ : ℚ) (_ : List Unit) => s)
        (Game.new (⟨false, 800, 600, 30⟩ : GameSettings) () () ())
        { now := 2, events := [], keys := fun _ => false,
          idleTimes := [9] }).2 ∧ (0 : ℚ) ≤ 2)
  ∧ ((frame (fun (c : Unit) (_ : KeyState) (_ : ℚ) => c)
        (fun (s : Unit) (_ : ℚ) (_ : List Unit) => s)
        (Game.new (⟨false, 800, 600, 30⟩ : GameSettings) () () ())
        { now := 2, events := [], keys := fun _ => false,
          idleTimes := [9] }).2).countP GAction.isSceneDraw = 1
  ∧ GAction.sceneDrawCall
      { aspect := (800 : ℚ) / 600, fovy := 70, znear := 1 / 10,
        zfar := 100 } ∈ (frame
        (fun (c : Unit) (_ : KeyState) (_ : ℚ) => c)
        (fun (s : Unit) (_ : ℚ) (_ : List Unit) => s)
        (Game.new (⟨false, 800, 600, 30⟩ : GameSettings) () () ())
        { now := 2, events := [], keys := fun _ => false,
          idleTimes := [9] }).2
  ∧ ((frame (fun (c : Unit) (_ : KeyState) (_ : ℚ) => c)
        (fun (s : Unit) (_ : ℚ) (_ : List Unit) => s)
        (Game.new (⟨false, 800, 600, 30⟩ : GameSettings) () () ())
        { now := 2, events := [], keys := fun _ => false,
          idleTimes := [9] }).2).countP GAction.isSwap = 1 :=
  single_iteration_contract (fun (c : Unit) (_ : KeyState) (_ : ℚ) => c)
    (fun (s : Unit) (_ : ℚ) (_ : List Unit) => s) () () ()
    { now := 2, events := [], keys := fun _ => false, idleTimes := [9] }
    (by norm_num) rfl (fun _ => rfl)

end Carambolage
